import Mathlib

/-!
Verification of the HealthScope risk-prediction utility layer
(`HealthScope/models/model_utils.py`) against its specification.

The Python functions are shallowly embedded: probabilities are rationals
(the source compares floats against the literals `0.33` and `0.67`; the
comparison structure is identical over `ℚ`), classifiers are records of
operations that either return a value or fail with an exception message
(`Except String`), and the dict-shaped prediction results become a
two-constructor inductive mirroring the success/failure dict shapes.
-/

namespace HealthScope

/-- Embedding of `get_risk_classification` (model_utils.py lines 63-78):
converts a probability to a `(risk_level, color, recommendation)` triple by
two threshold comparisons. -/
def get_risk_classification (probability : ℚ) : String × String × String :=
  if probability < 0.33 then
    ("Low Risk", "#10B981", "Maintain healthy lifestyle and regular check-ups.")
  else if probability < 0.67 then
    ("Moderate Risk", "#F59E0B", "Consult healthcare provider and consider lifestyle modifications.")
  else
    ("High Risk", "#EF4444", "Immediate medical consultation recommended.")

/-- The Low Risk output triple of `get_risk_classification`. -/
def lowTriple : String × String × String :=
  ("Low Risk", "#10B981", "Maintain healthy lifestyle and regular check-ups.")

/-- The Moderate Risk output triple of `get_risk_classification`. -/
def moderateTriple : String × String × String :=
  ("Moderate Risk", "#F59E0B", "Consult healthcare provider and consider lifestyle modifications.")

/-- The High Risk output triple of `get_risk_classification`. -/
def highTriple : String × String × String :=
  ("High Risk", "#EF4444", "Immediate medical consultation recommended.")

/-- Rank of a risk-band label in the order Low Risk < Moderate Risk < High Risk. -/
def labelRank (label : String) : Nat :=
  if label = "Low Risk" then 0 else if label = "Moderate Risk" then 1 else 2

/-- The dict returned by the predict functions: either the six-key success
dict `{prediction, probability, risk_level, color, recommendation, success: True}`
or the two-key failure dict `{success: False, error}`. -/
inductive PredictionResult where
  | success (prediction : Int) (probability : ℚ)
      (risk_level : String) (color : String) (recommendation : String)
  | failure (error : String)
  deriving DecidableEq

/-- A bare classifier over feature values of type `α`. `predict row` embeds
`model.predict(df)[0]` on the one-row column-selected DataFrame and
`predict_proba row` embeds `model.predict_proba(df)[0][1]`; a Python
exception raised by either call is an `Except.error` carrying its message. -/
structure Classifier (α : Type) where
  predict : List α → Except String Int
  predict_proba : List α → Except String ℚ

/-- A pipeline model (PCOS variant): its operations consume the raw one-row
DataFrame built directly from the input dict, performing their own column
selection and encoding internally. -/
structure PipelineModel (α : Type) where
  predict : List (String × α) → Except String Int
  predict_proba : List (String × α) → Except String ℚ

/-- Message of the `AttributeError` raised when `model` is `None` and
`model.predict` is invoked (the absent-model case). -/
def noneAttrError : String :=
  "AttributeError: NoneType object has no attribute predict"

/-- Embedding of `pd.DataFrame([input_data])[features]` (lines 95 and 133):
select from the input dict the value of each named feature, in order; extra
keys are ignored and a missing key raises a `KeyError` naming the column. -/
def selectColumns {α : Type} (input_data : List (String × α)) :
    List String → Except String (List α)
  | [] => Except.ok []
  | name :: rest =>
    match input_data.lookup name with
    | none => Except.error (name ++ " not in index")
    | some v =>
      match selectColumns input_data rest with
      | Except.error e => Except.error e
      | Except.ok vs => Except.ok (v :: vs)

/-- Embedding of `predict_heart_disease` (lines 81-116): select the columns
in the given order, call the model's `predict` and `predict_proba`, band the
probability with `get_risk_classification`, and bundle the success dict; any
exception along the way is caught and returned as the failure dict. -/
def predict_heart_disease {α : Type} (model : Option (Classifier α))
    (features : List String) (input_data : List (String × α)) : PredictionResult :=
  match selectColumns input_data features with
  | Except.error e => PredictionResult.failure e
  | Except.ok row =>
    match model with
    | none => PredictionResult.failure noneAttrError
    | some m =>
      match m.predict row with
      | Except.error e => PredictionResult.failure e
      | Except.ok prediction =>
        match m.predict_proba row with
        | Except.error e => PredictionResult.failure e
        | Except.ok probability =>
          let rc := get_risk_classification probability
          PredictionResult.success prediction probability rc.1 rc.2.1 rc.2.2

/-- Embedding of `predict_diabetes` (lines 119-154); the body of the source
function is identical to that of `predict_heart_disease`. -/
def predict_diabetes {α : Type} (model : Option (Classifier α))
    (features : List String) (input_data : List (String × α)) : PredictionResult :=
  match selectColumns input_data features with
  | Except.error e => PredictionResult.failure e
  | Except.ok row =>
    match model with
    | none => PredictionResult.failure noneAttrError
    | some m =>
      match m.predict row with
      | Except.error e => PredictionResult.failure e
      | Except.ok prediction =>
        match m.predict_proba row with
        | Except.error e => PredictionResult.failure e
        | Except.ok probability =>
          let rc := get_risk_classification probability
          PredictionResult.success prediction probability rc.1 rc.2.1 rc.2.2

/-- Embedding of `predict_pcos` (lines 157-191): no column-selection step;
the raw one-row DataFrame goes straight to the pipeline model. -/
def predict_pcos {α : Type} (model : Option (PipelineModel α))
    (input_data : List (String × α)) : PredictionResult :=
  match model with
  | none => PredictionResult.failure noneAttrError
  | some m =>
    match m.predict input_data with
    | Except.error e => PredictionResult.failure e
    | Except.ok prediction =>
      match m.predict_proba input_data with
      | Except.error e => PredictionResult.failure e
      | Except.ok probability =>
        let rc := get_risk_classification probability
        PredictionResult.success prediction probability rc.1 rc.2.1 rc.2.2

/-- A classification stage as probed by `get_feature_importance`: the only
attribute read from it is the optional `feature_importances_` vector. -/
structure ClassifierStage where
  feature_importances : Option (List ℚ)

/-- A preprocessing stage: `get_feature_names_out()` either returns the
transformed feature names or raises. -/
structure Preprocessor where
  get_feature_names_out : Except String (List String)

/-- The `named_steps` dict of a pipeline as read by the extractor: an
optional `classifier` step and an optional `preprocessor` step. -/
structure NamedSteps where
  classifier : Option ClassifierStage
  preprocessor : Option Preprocessor

/-- A model as probed by `get_feature_importance`: it may expose a
`named_steps` dict (pipeline shape) and may itself expose a
`feature_importances_` vector (bare tree-model shape). -/
structure FIModel where
  named_steps : Option NamedSteps
  feature_importances : Option (List ℚ)

/-- The importance vector that `get_feature_importance` reads (lines
207-215): from `model.named_steps.get('classifier', model)` when the model
is a pipeline, else from the model itself; `none` when the attribute is
absent. -/
def effImportances (model : FIModel) : Option (List ℚ) :=
  match model.named_steps with
  | some ns =>
    match ns.classifier with
    | some c => c.feature_importances
    | none => model.feature_importances
  | none => model.feature_importances

/-- The feature-name list after the optional preprocessor substitution
(lines 217-223): a pipeline preprocessor's `get_feature_names_out()` result
replaces the caller's names; when that call raises, the caller's names are
kept. -/
def effNames (model : FIModel) (feature_names : List String) : List String :=
  match model.named_steps with
  | some ns =>
    match ns.preprocessor with
    | some pre =>
      match pre.get_feature_names_out with
      | Except.ok transformed_names => transformed_names
      | Except.error _ => feature_names
    | none => feature_names
  | none => feature_names

/-- The synthetic placeholder names `Feature_0 .. Feature_{n-1}` of line 227. -/
def syntheticNames (n : Nat) : List String :=
  (List.range n).map (fun i => "Feature_" ++ toString i)

/-- Embedding of `get_feature_importance` (lines 194-237): unwrap the
classification stage and read its importance vector (returning `[]` when
there is none), reconcile the name list (preprocessor substitution, then the
synthetic fallback on a length mismatch), zip, sort descending by score
(Python's stable `sort` with `reverse=True`), and keep the first `top_n`
pairs. -/
def get_feature_importance (model : FIModel) (feature_names : List String)
    (top_n : Nat) : List (String × ℚ) :=
  match effImportances model with
  | none => []
  | some importances =>
    let names := effNames model feature_names
    let names2 :=
      if names.length ≠ importances.length then syntheticNames importances.length
      else names
    let importance_list := names2.zip importances
    (importance_list.mergeSort (fun a b => decide (b.2 ≤ a.2))).take top_n

end HealthScope

namespace HealthScope

/-- C1: for every probability `p`, `get_risk_classification p` is the fixed
Low Risk triple when `p < 0.33`, the fixed Moderate Risk triple when
`0.33 ≤ p < 0.67`, and the fixed High Risk triple when `0.67 ≤ p`; the three
triples are pairwise distinct, so exactly one of them is returned. In
particular `p = 0.33` yields Moderate Risk and `p = 0.67` yields High Risk
(see the witness). -/
theorem risk_classification_bands (p : ℚ) :
    (p < 0.33 → get_risk_classification p = lowTriple) ∧
    (0.33 ≤ p → p < 0.67 → get_risk_classification p = moderateTriple) ∧
    (0.67 ≤ p → get_risk_classification p = highTriple) ∧
    lowTriple ≠ moderateTriple ∧ moderateTriple ≠ highTriple ∧ lowTriple ≠ highTriple := by
  refine ⟨?_, ?_, ?_, by decide, by decide, by decide⟩
  · intro h
    simp [get_risk_classification, lowTriple, h]
  · intro h₁ h₂
    simp [get_risk_classification, moderateTriple, not_lt.mpr h₁, h₂]
  · intro h
    have h₁ : ¬ p < 0.33 := not_lt.mpr (le_trans (by norm_num) h)
    simp [get_risk_classification, highTriple, h₁, not_lt.mpr h]

/-- Witness for C1: at the boundaries, `0.33` lands in Moderate Risk and
`0.67` in High Risk. -/
theorem risk_classification_bands_witness :
    get_risk_classification 0.33 = moderateTriple ∧
    get_risk_classification 0.67 = highTriple :=
  ⟨(risk_classification_bands 0.33).2.1 (by norm_num) (by norm_num),
   (risk_classification_bands 0.67).2.2.1 (by norm_num)⟩

/-- C8: `get_risk_classification` is a total function on `ℚ` (it is a plain
Lean function, hence pure and deterministic): every input, including values
outside `[0,1]`, yields one of the three fixed band triples; inputs below 0
fall into the Low Risk band and inputs above 1 into the High Risk band by
the same comparison logic. -/
theorem risk_classification_total (p : ℚ) :
    (get_risk_classification p = lowTriple ∨
     get_risk_classification p = moderateTriple ∨
     get_risk_classification p = highTriple) ∧
    (p < 0 → get_risk_classification p = lowTriple) ∧
    (1 < p → get_risk_classification p = highTriple) := by
  refine ⟨?_, ?_, ?_⟩
  · unfold get_risk_classification lowTriple moderateTriple highTriple
    split
    · exact Or.inl rfl
    · split
      · exact Or.inr (Or.inl rfl)
      · exact Or.inr (Or.inr rfl)
  · intro h
    exact (risk_classification_bands p).1 (lt_trans h (by norm_num))
  · intro h
    exact (risk_classification_bands p).2.2.1 (le_of_lt (lt_trans (by norm_num) h))

/-- Witness for C8: the out-of-range inputs `-1` and `2` land in the lowest
and highest band respectively. -/
theorem risk_classification_total_witness :
    get_risk_classification (-1) = lowTriple ∧ get_risk_classification 2 = highTriple :=
  ⟨(risk_classification_total (-1)).2.1 (by norm_num),
   (risk_classification_total 2).2.2 (by norm_num)⟩

/-- C9: the band mapping is monotonic — `p ≤ q` implies the band of `p` is at
most the band of `q` in the order Low Risk < Moderate Risk < High Risk — and
on `[0,1)` the three bands are exactly the half-open intervals with
boundaries `0.33` and `0.67`. -/
theorem risk_classification_monotone_partition :
    (∀ p q : ℚ, p ≤ q →
      labelRank (get_risk_classification p).1 ≤ labelRank (get_risk_classification q).1) ∧
    (∀ p : ℚ, 0 ≤ p → p < 1 →
      ((get_risk_classification p).1 = "Low Risk" ↔ 0 ≤ p ∧ p < 0.33) ∧
      ((get_risk_classification p).1 = "Moderate Risk" ↔ 0.33 ≤ p ∧ p < 0.67) ∧
      ((get_risk_classification p).1 = "High Risk" ↔ 0.67 ≤ p ∧ p < 1)) := by
  have hr : ∀ r : ℚ, labelRank (get_risk_classification r).1 =
      if r < 0.33 then 0 else if r < 0.67 then 1 else 2 := by
    intro r
    unfold get_risk_classification
    split_ifs <;> decide
  constructor
  · intro p q hpq
    rw [hr p, hr q]
    split_ifs <;> first | (exfalso; linarith) | norm_num
  · intro p hp0 hp1
    unfold get_risk_classification
    split_ifs with h1 h2
    · exact ⟨⟨fun _ => ⟨hp0, h1⟩, fun _ => rfl⟩,
        ⟨fun h => absurd h (by decide), fun h => absurd h1 (not_lt.mpr h.1)⟩,
        ⟨fun h => absurd h (by decide),
         fun h => absurd h1 (not_lt.mpr (le_trans (by norm_num) h.1))⟩⟩
    · exact ⟨⟨fun h => absurd h (by decide), fun h => absurd h.2 h1⟩,
        ⟨fun _ => ⟨not_lt.mp h1, h2⟩, fun _ => rfl⟩,
        ⟨fun h => absurd h (by decide), fun h => absurd h2 (not_lt.mpr h.1)⟩⟩
    · exact ⟨⟨fun h => absurd h (by decide), fun h => absurd h.2 h1⟩,
        ⟨fun h => absurd h (by decide), fun h => absurd h.2 h2⟩,
        ⟨fun _ => ⟨not_lt.mp h2, hp1⟩, fun _ => rfl⟩⟩

/-- Witness for C9: monotonicity applied at `p = 0.2 ≤ q = 0.5`, and the
partition statement applied at `p = 0.5`. -/
theorem risk_classification_monotone_partition_witness :
    labelRank (get_risk_classification 0.2).1 ≤ labelRank (get_risk_classification 0.5).1 ∧
    ((get_risk_classification 0.5).1 = "Moderate Risk" ↔ (0.33 : ℚ) ≤ 0.5 ∧ (0.5 : ℚ) < 0.67) :=
  ⟨risk_classification_monotone_partition.1 0.2 0.5 (by norm_num),
   (risk_classification_monotone_partition.2 0.5 (by norm_num) (by norm_num)).2.1⟩

/-- The KeyError message built by `selectColumns` is never the empty string. -/
lemma not_in_index_ne_empty (s : String) : s ++ " not in index" ≠ "" := by
  intro hc
  have hlen := congrArg String.length hc
  rw [String.length_append] at hlen
  have h13 : (" not in index").length = 13 := rfl
  have h0 : ("" : String).length = 0 := rfl
  omega

/-- When every requested feature name is present in the input dict,
`selectColumns` succeeds with some row. -/
lemma selectColumns_ok_of_forall_mem {α : Type} (input_data : List (String × α)) :
    ∀ features : List String, (∀ n ∈ features, (input_data.lookup n).isSome) →
    ∃ row, selectColumns input_data features = Except.ok row := by
  intro features
  induction features with
  | nil => exact fun _ => ⟨[], rfl⟩
  | cons name rest ih =>
    intro h
    obtain ⟨v, hv⟩ := Option.isSome_iff_exists.mp (h name (List.mem_cons_self name rest))
    obtain ⟨row, hrow⟩ := ih (fun n hn => h n (List.mem_cons_of_mem _ hn))
    exact ⟨v :: row, by simp [selectColumns, hv, hrow]⟩

/-- When some requested feature name is absent from the input dict,
`selectColumns` fails with a non-empty error message. -/
lemma selectColumns_error_of_missing {α : Type} (input_data : List (String × α)) :
    ∀ features : List String, ∀ n ∈ features, input_data.lookup n = none →
    ∃ e, selectColumns input_data features = Except.error e ∧ e ≠ "" := by
  intro features
  induction features with
  | nil => exact fun n hn => absurd hn (List.not_mem_nil n)
  | cons name rest ih =>
    intro n hn hmiss
    rcases List.mem_cons.mp hn with heq | hmem
    · subst heq
      exact ⟨n ++ " not in index", by simp [selectColumns, hmiss],
        not_in_index_ne_empty n⟩
    · cases hlook : input_data.lookup name with
      | none =>
        exact ⟨name ++ " not in index", by simp [selectColumns, hlook],
          not_in_index_ne_empty name⟩
      | some v =>
        obtain ⟨e, he, hne⟩ := ih n hmem hmiss
        exact ⟨e, by simp [selectColumns, hlook, he], hne⟩

/-- C2: for every classifier whose `predict` returns a 0/1 class and whose
`predict_proba` returns a probability in `[0,1]`, and every feature vector
containing a value for every name in the ordered feature list, both
`predict_heart_disease` and `predict_diabetes` return the success dict with
probability in `[0,1]` and prediction in `{0,1}`. -/
theorem predict_valid_succeeds {α : Type} (m : Classifier α) (features : List String)
    (input_data : List (String × α))
    (hpred : ∀ row, ∃ c, m.predict row = Except.ok c ∧ (c = 0 ∨ c = 1))
    (hproba : ∀ row, ∃ p, m.predict_proba row = Except.ok p ∧ 0 ≤ p ∧ p ≤ 1)
    (hfeat : ∀ n ∈ features, (input_data.lookup n).isSome) :
    ∃ c p rl col rcm,
      predict_heart_disease (some m) features input_data =
        PredictionResult.success c p rl col rcm ∧
      predict_diabetes (some m) features input_data =
        PredictionResult.success c p rl col rcm ∧
      (c = 0 ∨ c = 1) ∧ 0 ≤ p ∧ p ≤ 1 := by
  obtain ⟨row, hrow⟩ := selectColumns_ok_of_forall_mem input_data features hfeat
  obtain ⟨c, hc, hc01⟩ := hpred row
  obtain ⟨p, hp, hp0, hp1⟩ := hproba row
  exact ⟨c, p, (get_risk_classification p).1, (get_risk_classification p).2.1,
    (get_risk_classification p).2.2,
    by simp [predict_heart_disease, hrow, hc, hp],
    by simp [predict_diabetes, hrow, hc, hp],
    hc01, hp0, hp1⟩

/-- Witness for C2: a constant classifier answering class 1 with probability
1/2 on a one-feature vector. -/
theorem predict_valid_succeeds_witness :
    ∃ c p rl col rcm,
      predict_heart_disease (some (⟨fun _ => Except.ok 1, fun _ => Except.ok (1/2)⟩ : Classifier ℚ))
        ["age"] [("age", (50 : ℚ))] = PredictionResult.success c p rl col rcm ∧
      predict_diabetes (some (⟨fun _ => Except.ok 1, fun _ => Except.ok (1/2)⟩ : Classifier ℚ))
        ["age"] [("age", (50 : ℚ))] = PredictionResult.success c p rl col rcm ∧
      (c = 0 ∨ c = 1) ∧ 0 ≤ p ∧ p ≤ 1 :=
  predict_valid_succeeds ⟨fun _ => Except.ok 1, fun _ => Except.ok (1/2)⟩ ["age"]
    [("age", (50 : ℚ))]
    (fun _ => ⟨1, rfl, Or.inr rfl⟩)
    (fun _ => ⟨1/2, rfl, by norm_num, by norm_num⟩)
    (by decide)

/-- C3: for every feature vector missing at least one name of the ordered
feature list, `predict_heart_disease` and `predict_diabetes` return the
failure dict with a non-empty error message (being total Lean functions,
they raise nothing). -/
theorem predict_missing_feature_fails {α : Type} (model : Option (Classifier α))
    (features : List String) (input_data : List (String × α)) (n : String)
    (hn : n ∈ features) (hmiss : input_data.lookup n = none) :
    ∃ e, predict_heart_disease model features input_data = PredictionResult.failure e ∧
      predict_diabetes model features input_data = PredictionResult.failure e ∧ e ≠ "" := by
  obtain ⟨e, he, hne⟩ := selectColumns_error_of_missing input_data features n hn hmiss
  exact ⟨e, by simp [predict_heart_disease, he], by simp [predict_diabetes, he], hne⟩

/-- Witness for C3: an empty feature vector with one required feature name. -/
theorem predict_missing_feature_fails_witness :
    ∃ e, predict_heart_disease (none : Option (Classifier ℚ)) ["bmi"] [] =
        PredictionResult.failure e ∧
      predict_diabetes (none : Option (Classifier ℚ)) ["bmi"] [] =
        PredictionResult.failure e ∧ e ≠ "" :=
  predict_missing_feature_fails none ["bmi"] [] "bmi" (by decide) rfl

/-- C4: every internal failure of the three predict functions — a missing
column, an absent (`None`) model, or an exception from `predict` or
`predict_proba` — is caught and returned as a failure dict carrying the
exception's message; the functions are total, so nothing propagates. -/
theorem predict_catches_exceptions (α : Type) :
    (∀ (features : List String) (input_data : List (String × α)) (e : String),
      selectColumns input_data features = Except.error e →
      ∀ model, predict_heart_disease model features input_data = PredictionResult.failure e ∧
        predict_diabetes model features input_data = PredictionResult.failure e) ∧
    (∀ (features : List String) (input_data : List (String × α)) (row : List α),
      selectColumns input_data features = Except.ok row →
      predict_heart_disease (none : Option (Classifier α)) features input_data =
        PredictionResult.failure noneAttrError ∧
      predict_diabetes (none : Option (Classifier α)) features input_data =
        PredictionResult.failure noneAttrError) ∧
    (∀ (m : Classifier α) (features : List String) (input_data : List (String × α))
      (row : List α) (e : String),
      selectColumns input_data features = Except.ok row → m.predict row = Except.error e →
      predict_heart_disease (some m) features input_data = PredictionResult.failure e ∧
        predict_diabetes (some m) features input_data = PredictionResult.failure e) ∧
    (∀ (m : Classifier α) (features : List String) (input_data : List (String × α))
      (row : List α) (c : Int) (e : String),
      selectColumns input_data features = Except.ok row → m.predict row = Except.ok c →
      m.predict_proba row = Except.error e →
      predict_heart_disease (some m) features input_data = PredictionResult.failure e ∧
        predict_diabetes (some m) features input_data = PredictionResult.failure e) ∧
    (∀ input_data : List (String × α),
      predict_pcos (none : Option (PipelineModel α)) input_data =
        PredictionResult.failure noneAttrError) ∧
    (∀ (pm : PipelineModel α) (input_data : List (String × α)) (e : String),
      pm.predict input_data = Except.error e →
      predict_pcos (some pm) input_data = PredictionResult.failure e) ∧
    (∀ (pm : PipelineModel α) (input_data : List (String × α)) (c : Int) (e : String),
      pm.predict input_data = Except.ok c → pm.predict_proba input_data = Except.error e →
      predict_pcos (some pm) input_data = PredictionResult.failure e) := by
  refine ⟨?_, ?_, ?_, ?_, ?_, ?_, ?_⟩ <;> intros <;>
    simp_all [predict_heart_disease, predict_diabetes, predict_pcos]

/-- Witness for C4: the absent-model case for heart/diabetes and a raising
pipeline for PCOS, at concrete empty inputs. -/
theorem predict_catches_exceptions_witness :
    (predict_heart_disease (none : Option (Classifier ℚ)) [] [] =
        PredictionResult.failure noneAttrError ∧
      predict_diabetes (none : Option (Classifier ℚ)) [] [] =
        PredictionResult.failure noneAttrError) ∧
    predict_pcos (some (⟨fun _ => Except.error "boom", fun _ => Except.ok 0⟩ : PipelineModel ℚ))
        [] = PredictionResult.failure "boom" :=
  ⟨(predict_catches_exceptions ℚ).2.1 [] [] [] rfl,
   (predict_catches_exceptions ℚ).2.2.2.2.2.1
     ⟨fun _ => Except.error "boom", fun _ => Except.ok 0⟩ [] "boom" rfl⟩

/-- C5: every successful result of the three predict functions carries
exactly the `get_risk_classification` triple of its own probability. -/
theorem predict_risk_roundtrip {α : Type} :
    (∀ (model : Option (Classifier α)) (features : List String)
      (input_data : List (String × α)) (c : Int) (p : ℚ) (rl col rcm : String),
      predict_heart_disease model features input_data =
        PredictionResult.success c p rl col rcm →
      get_risk_classification p = (rl, col, rcm)) ∧
    (∀ (model : Option (Classifier α)) (features : List String)
      (input_data : List (String × α)) (c : Int) (p : ℚ) (rl col rcm : String),
      predict_diabetes model features input_data =
        PredictionResult.success c p rl col rcm →
      get_risk_classification p = (rl, col, rcm)) ∧
    (∀ (model : Option (PipelineModel α)) (input_data : List (String × α))
      (c : Int) (p : ℚ) (rl col rcm : String),
      predict_pcos model input_data = PredictionResult.success c p rl col rcm →
      get_risk_classification p = (rl, col, rcm)) := by
  refine ⟨?_, ?_, ?_⟩ <;> intro model
  · intro features input_data c p rl col rcm h
    unfold predict_heart_disease at h
    repeat' split at h
    any_goals exact PredictionResult.noConfusion h
    obtain ⟨h1, h2, h3, h4, h5⟩ := PredictionResult.success.inj h
    subst h2; subst h3; subst h4; subst h5
    rfl
  · intro features input_data c p rl col rcm h
    unfold predict_diabetes at h
    repeat' split at h
    any_goals exact PredictionResult.noConfusion h
    obtain ⟨h1, h2, h3, h4, h5⟩ := PredictionResult.success.inj h
    subst h2; subst h3; subst h4; subst h5
    rfl
  · intro input_data c p rl col rcm h
    unfold predict_pcos at h
    repeat' split at h
    any_goals exact PredictionResult.noConfusion h
    obtain ⟨h1, h2, h3, h4, h5⟩ := PredictionResult.success.inj h
    subst h2; subst h3; subst h4; subst h5
    rfl

/-- Witness for C5: a classifier answering class 1 with probability 0.82
yields the full High Risk success dict of the specification example, and the
round-trip theorem applied to it recovers the High Risk triple. -/
theorem predict_risk_roundtrip_witness :
    predict_heart_disease
        (some (⟨fun _ => Except.ok 1, fun _ => Except.ok 0.82⟩ : Classifier ℚ))
        ["thal"] [("thal", (3 : ℚ))] =
      PredictionResult.success 1 0.82 "High Risk" "#EF4444"
        "Immediate medical consultation recommended." ∧
    get_risk_classification 0.82 =
      ("High Risk", "#EF4444", "Immediate medical consultation recommended.") := by
  have h : predict_heart_disease
      (some (⟨fun _ => Except.ok 1, fun _ => Except.ok 0.82⟩ : Classifier ℚ))
      ["thal"] [("thal", (3 : ℚ))] =
      PredictionResult.success 1 0.82 "High Risk" "#EF4444"
        "Immediate medical consultation recommended." := by
    norm_num [predict_heart_disease, selectColumns, get_risk_classification]
  exact ⟨h, predict_risk_roundtrip.1
    (some (⟨fun _ => Except.ok 1, fun _ => Except.ok 0.82⟩ : Classifier ℚ))
    ["thal"] [("thal", (3 : ℚ))] 1 0.82 "High Risk" "#EF4444"
    "Immediate medical consultation recommended." h⟩

/-- C10: `predict_heart_disease` and `predict_diabetes` compute the same
function — the two source bodies are identical line for line. -/
theorem predict_heart_eq_predict_diabetes {α : Type} (model : Option (Classifier α))
    (features : List String) (input_data : List (String × α)) :
    predict_heart_disease model features input_data =
      predict_diabetes model features input_data := rfl

/-- Unfolding of `get_feature_importance` when an importance vector is
exposed. -/
lemma get_feature_importance_of_some (model : FIModel) (feature_names : List String)
    (top_n : Nat) (importances : List ℚ)
    (him : effImportances model = some importances) :
    get_feature_importance model feature_names top_n =
      (((if (effNames model feature_names).length ≠ importances.length
          then syntheticNames importances.length
          else effNames model feature_names).zip importances).mergeSort
        (fun a b => decide (b.2 ≤ a.2))).take top_n := by
  unfold get_feature_importance
  rw [him]

/-- Unfolding of `get_feature_importance` when no importance vector is
exposed. -/
lemma get_feature_importance_of_none (model : FIModel) (feature_names : List String)
    (top_n : Nat) (him : effImportances model = none) :
    get_feature_importance model feature_names top_n = [] := by
  unfold get_feature_importance
  rw [him]

/-- Any prefix of the descending merge sort used by the importance extractor
is pairwise weakly descending in the score component. -/
lemma pairwise_mergeSortDesc_take (l : List (String × ℚ)) (n : Nat) :
    ((l.mergeSort (fun a b => decide (b.2 ≤ a.2))).take n).Pairwise
      (fun x y => y.2 ≤ x.2) := by
  have h : (l.mergeSort (fun a b => decide (b.2 ≤ a.2))).Pairwise
      (fun a b => decide (b.2 ≤ a.2) = true) :=
    @List.sorted_mergeSort (String × ℚ) (fun a b => decide (b.2 ≤ a.2))
      (fun a b c h1 h2 =>
        decide_eq_true (le_trans (of_decide_eq_true h2) (of_decide_eq_true h1)))
      (fun a b => by rcases le_total b.2 a.2 with hh | hh <;> simp [hh])
      l
  exact (List.Pairwise.sublist (List.take_sublist n _) h).imp
    (fun hab => of_decide_eq_true hab)

unseal List.merge List.mergeSort in
/-- C6 counterexample: a model with two tied importance scores; the returned
sequence keeps both pairs at score 1, so it is not *strictly* descending as
the claim states. -/
theorem feature_importance_tie_counterexample :
    get_feature_importance (⟨none, some [1, 1]⟩ : FIModel) ["a", "b"] 10 =
      [("a", 1), ("b", 1)] ∧
    ¬ (get_feature_importance (⟨none, some [1, 1]⟩ : FIModel) ["a", "b"] 10).Pairwise
        (fun x y => x.2 > y.2) := by decide

/-- C6 (amended): `get_feature_importance` returns a sequence sorted weakly
descending by score (ties keep their relative order, so the order is not
strict in general), of length at most `top_n`; for `top_n = 0` it returns
the empty sequence; and for a model (or unwrapped classification stage)
lacking an importance vector it returns the empty sequence without error. -/
theorem feature_importance_sorted_truncated (model : FIModel)
    (feature_names : List String) (top_n : Nat) :
    (get_feature_importance model feature_names top_n).Pairwise
      (fun x y => y.2 ≤ x.2) ∧
    (get_feature_importance model feature_names top_n).length ≤ top_n ∧
    (top_n = 0 → get_feature_importance model feature_names top_n = []) ∧
    (effImportances model = none →
      get_feature_importance model feature_names top_n = []) := by
  cases him : effImportances model with
  | none =>
    rw [get_feature_importance_of_none model feature_names top_n him]
    exact ⟨List.Pairwise.nil, by simp, fun _ => rfl, fun _ => rfl⟩
  | some importances =>
    rw [get_feature_importance_of_some model feature_names top_n importances him]
    refine ⟨pairwise_mergeSortDesc_take _ _, List.length_take_le _ _, ?_, ?_⟩
    · intro h
      subst h
      simp
    · intro h
      exact Option.noConfusion h

/-- Witness for C6: a model lacking an importance vector, once with
`top_n = 0` (discharging the `top_n = 0` hypothesis) and once with
`top_n = 3` (discharging the missing-importances hypothesis). -/
theorem feature_importance_sorted_truncated_witness :
    get_feature_importance (⟨none, none⟩ : FIModel) ["x"] 0 = [] ∧
    get_feature_importance (⟨none, none⟩ : FIModel) ["x"] 3 = [] :=
  ⟨(feature_importance_sorted_truncated ⟨none, none⟩ ["x"] 0).2.2.1 rfl,
   (feature_importance_sorted_truncated ⟨none, none⟩ ["x"] 3).2.2.2 rfl⟩

unseal List.merge List.mergeSort in
/-- C7 counterexample: a pipeline whose preprocessor reports three names of
matching length; the supplied name list has length 1 ≠ 3, yet the output
keeps the preprocessor names — the synthetic `Feature_i` substitution the
claim demands for every mismatched supplied list does not happen. -/
theorem feature_importance_preprocessor_counterexample :
    get_feature_importance
        (⟨some ⟨some ⟨some [1, 2, 3]⟩, some ⟨Except.ok ["p0", "p1", "p2"]⟩⟩, none⟩ : FIModel)
        ["a"] 10 = [("p2", 3), ("p1", 2), ("p0", 1)] ∧
    get_feature_importance
        (⟨some ⟨some ⟨some [1, 2, 3]⟩, some ⟨Except.ok ["p0", "p1", "p2"]⟩⟩, none⟩ : FIModel)
        ["a"] 10 ≠
      [("Feature_2", (3 : ℚ)), ("Feature_1", 2), ("Feature_0", 1)] := by decide

/-- C7 (amended): when the *effective* name list — the preprocessor-reported
names when the model has a preprocessor stage that reports them
successfully, otherwise the supplied list — differs in length from the
importance vector, the names are discarded for the synthetic
`Feature_0 .. Feature_{n-1}` and the pairs are sorted descending by score
and truncated to `top_n`. -/
theorem feature_importance_synthetic_on_mismatch (model : FIModel)
    (feature_names : List String) (top_n : Nat) (importances : List ℚ)
    (him : effImportances model = some importances)
    (hlen : (effNames model feature_names).length ≠ importances.length) :
    get_feature_importance model feature_names top_n =
      (((syntheticNames importances.length).zip importances).mergeSort
        (fun a b => decide (b.2 ≤ a.2))).take top_n := by
  rw [get_feature_importance_of_some model feature_names top_n importances him,
    if_pos hlen]

unseal List.merge List.mergeSort in
/-- Witness for C7: the specification example — an importance vector of
length 5 with only 3 supplied names yields `Feature_0 .. Feature_4`, sorted
descending by score. -/
theorem feature_importance_synthetic_on_mismatch_witness :
    get_feature_importance (⟨none, some [1, 2, 3, 4, 5]⟩ : FIModel) ["a", "b", "c"] 10 =
      [("Feature_4", (5 : ℚ)), ("Feature_3", 4), ("Feature_2", 3), ("Feature_1", 2),
        ("Feature_0", 1)] := by
  rw [feature_importance_synthetic_on_mismatch (⟨none, some [1, 2, 3, 4, 5]⟩ : FIModel)
    ["a", "b", "c"] 10 [1, 2, 3, 4, 5] rfl (by decide)]
  decide

end HealthScope
